import Mathlib

/-!
Verification of the chess-tree statistics core against its specification.

The Python sources (data_manager.py, utils.py) are shallowly embedded:
pure functions become Lean functions, the SQLite `move_stats` table
becomes an association list keyed by (fen, move, network), stateful
components pass their state explicitly, and the external collaborators
(the python-chess rules engine, the HTTP client, the filesystem and the
random generator) appear as explicit oracle parameters.  Machine
integers are modelled as Nat/Int (Python ints are unbounded, and the
stored tallies are non-negative), floats as exact rationals.
-/

/-! ## Data model (data_manager.py lines 33-85)

`GameResult` and `MoveStats` are the dataclasses of data_manager.py.
Timestamps are abstracted as naturals.  -/

/-- GameResult dataclass of data_manager.py (lines 33-41): one game's
outcome for one (position, move) pair. -/
structure GameResult where
  fen : String
  move : String
  result : String
  network : String
  source_file : String
  timestamp : Nat
deriving DecidableEq, Repr

/-- MoveStats dataclass of data_manager.py (lines 43-85): the persisted
move aggregate.  Wins/losses/draws are stored as non-negative integers
(every writer in the code stores non-negative tallies). -/
structure MoveStats where
  fen : String
  move : String
  wins : Nat
  losses : Nat
  draws : Nat
  network : String
  source_files : List String
  last_updated : Nat
  evaluation_score : Int
deriving DecidableEq, Repr

/-- total_games property (data_manager.py lines 60-62). -/
def MoveStats.total_games (s : MoveStats) : Nat :=
  s.wins + s.losses + s.draws

/-- performance_score property (data_manager.py lines 64-68): returns
0.5 when total_games is 0, else (wins + 0.5*draws)/total_games. -/
def MoveStats.performance_score (s : MoveStats) : ℚ :=
  if s.total_games = 0 then 1/2
  else ((s.wins : ℚ) + 1/2 * (s.draws : ℚ)) / (s.total_games : ℚ)

/-- decisiveness_score property (data_manager.py lines 70-74). -/
def MoveStats.decisiveness_score (s : MoveStats) : ℚ :=
  if s.total_games = 0 then 0
  else ((s.wins : ℚ) + (s.losses : ℚ)) / (s.total_games : ℚ)

/-- confidence_level property (data_manager.py lines 76-85). -/
def MoveStats.confidence_level (s : MoveStats) : String :=
  if 100 ≤ s.total_games then "high"
  else if 50 ≤ s.total_games then "medium"
  else if 10 ≤ s.total_games then "low"
  else "very_low"

namespace Utils

/-- MoveStats dataclass of utils.py (lines 76-120): a second, distinct
class with the same fields but different derived-score conventions. -/
structure MoveStats where
  fen : String
  move : String
  wins : Nat
  losses : Nat
  draws : Nat
  network : String
  source_files : List String
  last_updated : Nat
  evaluation_score : Int
deriving DecidableEq, Repr

/-- total_games property (utils.py lines 93-95). -/
def MoveStats.total_games (s : MoveStats) : Nat :=
  s.wins + s.losses + s.draws

/-- performance_score property (utils.py lines 97-102): returns 0.0
(not 0.5) when total_games is 0. -/
def MoveStats.performance_score (s : MoveStats) : ℚ :=
  if s.total_games = 0 then 0
  else ((s.wins : ℚ) + 1/2 * (s.draws : ℚ)) / (s.total_games : ℚ)

/-- confidence_level property (utils.py lines 112-120). -/
def MoveStats.confidence_level (s : MoveStats) : String :=
  if s.total_games < 10 then "low"
  else if s.total_games < 50 then "medium"
  else "high"

end Utils

/-! ## Statistics store (CacheManager, data_manager.py lines 633-878)

The SQLite table `move_stats` has primary key (fen, move, network); it
is modelled as a list of rows in which that key is unique (the freshest
row is at the head).  -/

/-- The move_stats table: a list of rows, most recently written first. -/
abbrev Store := List MoveStats

/-- Row predicate for the primary key (fen, move, network). -/
def sameKey (a b : MoveStats) : Bool :=
  a.fen == b.fen && a.move == b.move && a.network == b.network

/-- CacheManager.update_move_stats (data_manager.py lines 813-832):
an SQL INSERT OR REPLACE on primary key (fen, move, network) — the row
for the key is REPLACED by the given stats, not merged with them. -/
def update_move_stats (db : Store) (stats : MoveStats) : Store :=
  stats :: db.filter (fun r => !(sameKey r stats))

/-- CacheManager.get_move_stats (data_manager.py lines 769-811): point
lookup by fen and move, optionally also filtering by network. -/
def get_move_stats (db : Store) (fen move : String) (network : Option String) :
    Option MoveStats :=
  db.find? (fun r =>
    r.fen == fen && r.move == move &&
      (match network with
       | none => true
       | some n => r.network == n))

/-- CacheManager.store_game_result, SQLite path (data_manager.py lines
729-750, taken when the LMDB environment is absent): builds a MoveStats
holding this single game's outcome and passes it to update_move_stats.
(The LMDB path, lines 752-767, writes the raw game result into a
separate key-value store that get_move_stats never reads.) -/
def store_game_result (db : Store) (g : GameResult) : Store :=
  update_move_stats db
    { fen := g.fen
      move := g.move
      wins := if g.result == "1-0" then 1 else 0
      losses := if g.result == "0-1" then 1 else 0
      draws := if g.result == "1/2-1/2" then 1 else 0
      network := g.network
      source_files := [g.source_file]
      last_updated := g.timestamp
      evaluation_score := 0 }

/-- ORDER BY key of get_all_moves_for_position: the SQL expression
(wins + 0.5*draws)/(wins + losses + draws), which is NULL (modelled as
none) when the divisor is 0. -/
def sqlite_perf_key (s : MoveStats) : Option ℚ :=
  if s.wins + s.losses + s.draws = 0 then none
  else some (((s.wins : ℚ) + 1/2 * (s.draws : ℚ)) / ((s.wins + s.losses + s.draws : Nat) : ℚ))

/-- Descending comparison of ORDER BY keys; SQLite sorts NULL as the
smallest value, so NULL rows come last under DESC. -/
def key_ge : Option ℚ → Option ℚ → Bool
  | none, none => true
  | none, some _ => false
  | some _, none => true
  | some x, some y => y ≤ x

/-- Insertion step for the ORDER BY ... DESC sort. -/
def insert_desc (x : MoveStats) : List MoveStats → List MoveStats
  | [] => [x]
  | y :: ys =>
      if key_ge (sqlite_perf_key x) (sqlite_perf_key y) then x :: y :: ys
      else y :: insert_desc x ys

/-- Stable sort realising ORDER BY (wins+0.5*draws)/(wins+losses+draws) DESC. -/
def sort_desc : List MoveStats → List MoveStats
  | [] => []
  | x :: xs => insert_desc x (sort_desc xs)

/-- CacheManager.get_all_moves_for_position (data_manager.py lines
834-878): all rows for a position (optionally restricted to a network),
ordered by descending performance expression. -/
def get_all_moves_for_position (db : Store) (fen : String) (network : Option String) :
    List MoveStats :=
  sort_desc (db.filter (fun r =>
    r.fen == fen &&
      (match network with
       | none => true
       | some n => r.network == n)))

/-! ## Position canonicalizer (utils.py lines 122-130)

A raw FEN position description is modelled by its six whitespace-
separated fields (splitting on spaces in the Python code is the
identity on this representation).  The third-party rules engine
(python-chess, an external collaborator per the spec) appears at two
points: `Board.ofFen` models `chess.Board(fen)` — it validates the
description, fails (raises) on an invalid one and keeps the four
position fields; `Board.fenFields` models `board.fen()` — the library
re-serializes exactly the position it parsed, with the board's move
counters.  A `chess.Board` constructed from a FEN string always starts
with an EMPTY move_stack (no moves have been pushed), which the model
records explicitly because data_manager.py reads its length. -/

/-- The six fields of a FEN position description. -/
structure FenFields where
  placement : String
  active : String
  castling : String
  ep : String
  halfmove : Nat
  fullmove : Nat
deriving DecidableEq, Repr

/-- The state of a `chess.Board`: the four position fields, the move
counters, and the stack of moves pushed since construction. -/
structure Board where
  placement : String
  active : String
  castling : String
  ep : String
  halfmove : Nat
  fullmove : Nat
  move_stack : List String
deriving DecidableEq, Repr

/-- Structural validity at the library boundary (chess.Board raises
ValueError on an invalid description; the model checks the fields the
claims depend on — the side to move must be "w" or "b"). -/
def fenValid (f : FenFields) : Bool :=
  f.active == "w" || f.active == "b"

/-- chess.Board(fen): parse a FEN description; none models the raised
ValueError.  The resulting board has an empty move_stack. -/
def Board.ofFen (f : FenFields) : Option Board :=
  if fenValid f then
    some ⟨f.placement, f.active, f.castling, f.ep, f.halfmove, f.fullmove, []⟩
  else none

/-- board.fen(): the library's re-serialization of the board. -/
def Board.fenFields (b : Board) : FenFields :=
  ⟨b.placement, b.active, b.castling, b.ep, b.halfmove, b.fullmove⟩

/-- utils.normalize_fen (utils.py lines 122-130): parse with
chess.Board, keep the first four fields of board.fen(), and append the
literal move counters '0' and '1'.  none models the ValueError that
propagates out of chess.Board on an invalid description. -/
def normalize_fen (f : FenFields) : Option FenFields :=
  (Board.ofFen f).map (fun b =>
    { placement := b.fenFields.placement
      active := b.fenFields.active
      castling := b.fenFields.castling
      ep := b.fenFields.ep
      halfmove := 0
      fullmove := 1 })

/-- Serialization of the six fields back into the FEN string used as a
store and cache key. -/
def fenStr (f : FenFields) : String :=
  f.placement ++ " " ++ f.active ++ " " ++ f.castling ++ " " ++ f.ep ++ " "
    ++ toString f.halfmove ++ " " ++ toString f.fullmove

/-! ## Integrity-checked downloader (DatasetManager, data_manager.py)

Network and filesystem behaviour are oracle inputs: each download
attempt of `_download_with_retry` either raises a RequestException,
completes its stream (after which integrity verification passes or
fails), is interrupted by the user, or raises some other exception. -/

/-- Outcome of one iteration of the attempt loop in
_download_with_retry (data_manager.py lines 235-387). -/
inductive AttemptOutcome where
  | requestError (tempWritten : Bool)
  | streamed (integrityOk : Bool)
  | interrupted
  | unexpectedError
deriving DecidableEq, Repr

/-- How a download routine ends: returning True, returning False, or
terminating the whole process via sys.exit(1). -/
inductive DownloadResult where
  | success
  | failure
  | exited
deriving DecidableEq, Repr

/-- The attempt loop of _download_with_retry (data_manager.py lines
235-389); `remaining` counts the attempts left out of max_retries, and
`tmp` records whether a temporary file is currently on disk.  Returns
the routine's result together with whether a temporary file is left
behind.  Mirrors the source: a completed stream that fails integrity
verification deletes the temporary file and then calls sys.exit(1)
(lines 348-358); a RequestException leaves the temporary file in place
and retries with backoff, or returns False on the last attempt (lines
360-372); a KeyboardInterrupt deletes the temporary file and exits
(lines 374-380); any other exception deletes the temporary file and
returns False (lines 382-387). -/
def download_attempts : List AttemptOutcome → Nat → Bool → DownloadResult × Bool
  | _, 0, tmp => (.failure, tmp)
  | [], _ + 1, tmp => (.failure, tmp)
  | o :: rest, remaining + 1, tmp =>
    match o with
    | .streamed true => (.success, false)
    | .streamed false => (.exited, false)
    | .interrupted => (.exited, false)
    | .unexpectedError => (.failure, false)
    | .requestError w =>
        match remaining with
        | 0 => (.failure, tmp || w)
        | r + 1 => download_attempts rest (r + 1) (tmp || w)

/-- DatasetManager._download_with_retry (data_manager.py lines 229-389)
with its default max_retries=3 and no temporary file initially. -/
def download_with_retry (outcomes : List AttemptOutcome) : DownloadResult × Bool :=
  download_attempts outcomes 3 false

/-- The static dataset catalog dataset_sources (data_manager.py lines
100-146): name, description, size_mb, and the URL list (primary first,
then fallback_urls). -/
def dataset_sources : List (String × String × Nat × List String) :=
  [("lichess_2023_01", "Lichess rated games 2023-01", 1800,
     ["https://database.lichess.org/standard/lichess_db_standard_rated_2023-01.pgn.zst",
      "https://database.lichess.org/standard/lichess_db_standard_rated_2023-01.pgn.zst",
      "https://archive.org/download/lichess_db_standard_rated_2023-01/lichess_db_standard_rated_2023-01.pgn.zst"]),
   ("lichess_2022_12", "Lichess rated games 2022-12", 1700,
     ["https://database.lichess.org/standard/lichess_db_standard_rated_2022-12.pgn.zst",
      "https://database.lichess.org/standard/lichess_db_standard_rated_2022-12.pgn.zst"]),
   ("lichess_2022_11", "Lichess rated games 2022-11", 1600,
     ["https://database.lichess.org/standard/lichess_db_standard_rated_2022-11.pgn.zst",
      "https://database.lichess.org/standard/lichess_db_standard_rated_2022-11.pgn.zst"]),
   ("lichess_2022_10", "Lichess rated games 2022-10", 1500,
     ["https://database.lichess.org/standard/lichess_db_standard_rated_2022-10.pgn.zst",
      "https://database.lichess.org/standard/lichess_db_standard_rated_2022-10.pgn.zst"])]

/-- Catalog lookup by dataset name. -/
def findDataset (name : String) : Option (String × String × Nat × List String) :=
  dataset_sources.find? (fun d => d.1 == name)

namespace DatasetManager

/-- The URL loop of DatasetManager.download_dataset (data_manager.py
lines 477-508): try each URL in turn with _download_with_retry (the
`net` oracle gives each URL's attempt outcomes); a verified success
returns True, a success failing the final verification deletes the file
and returns False, a failed URL falls through to the next one, and a
sys.exit from the retry loop terminates everything. -/
def try_urls (net : String → List AttemptOutcome) (finalVerifyOk : Bool) :
    List String → DownloadResult
  | [] => .failure
  | u :: rest =>
    match (download_with_retry (net u)).1 with
    | .success => if finalVerifyOk then .success else .failure
    | .exited => .exited
    | .failure => try_urls net finalVerifyOk rest

/-- DatasetManager.download_dataset (data_manager.py lines 443-520):
unknown names return False immediately; an already verified local file
returns True; a dataset past the retry limit returns False; otherwise
the URL loop runs, and exhausting every URL records a retry and returns
False.  `alreadyAvailable` is the is_dataset_available filesystem
check, `retryCount` the entry of _retry_count, and `finalVerifyOk` the
final _verify_file_integrity check. -/
def download_dataset (name : String) (alreadyAvailable : Bool) (retryCount : Nat)
    (net : String → List AttemptOutcome) (finalVerifyOk : Bool) : DownloadResult :=
  match findDataset name with
  | none => .failure
  | some d =>
    if alreadyAvailable then .success
    else if 3 ≤ retryCount then .failure
    else try_urls net finalVerifyOk d.2.2.2

/-- Status dictionary fields returned by DatasetManager.get_dataset_status
for a known dataset. -/
structure DatasetStatusInfo where
  name : String
  description : String
  size_mb : Nat
  downloaded : Bool
  verified : Bool
  retry_count : Nat
deriving DecidableEq, Repr

/-- Result of DatasetManager.get_dataset_status: either the error
dictionary or the status dictionary. -/
inductive DatasetStatus where
  | error (msg : String)
  | status (info : DatasetStatusInfo)
deriving DecidableEq, Repr

/-- DatasetManager.get_dataset_status (data_manager.py lines 553-576):
unknown names get the dictionary with the single "error" entry; known
names get the status dictionary.  `fileExists` and `verified` stand for
the filesystem checks, `retryCount` for the _retry_count entry. -/
def get_dataset_status (name : String) (fileExists verified : Bool)
    (retryCount : Nat) : DatasetStatus :=
  match findDataset name with
  | none => .error "Unknown dataset"
  | some d => .status ⟨name, d.2.1, d.2.2.1, fileExists, verified, retryCount⟩

/-- The position_datasets table (data_manager.py lines 149-153). -/
def position_datasets : String → List String
  | "opening" => ["lichess_2023_01", "lichess_2022_12"]
  | "middlegame" => ["lichess_2023_01", "lichess_2022_12", "lichess_2022_11"]
  | "endgame" =>
      ["lichess_2023_01", "lichess_2022_12", "lichess_2022_11", "lichess_2022_10"]
  | _ => []

/-- DatasetManager.get_relevant_datasets_for_position (data_manager.py
lines 391-422): builds a chess.Board from the FEN, takes move_count =
len(board.move_stack), classifies the position, filters the phase's
datasets by availability (the `avail` oracle is is_dataset_available),
and falls back to the most recent dataset when none is available or on
any exception. -/
def get_relevant_datasets_for_position (avail : String → Bool) (f : FenFields) :
    List String :=
  match Board.ofFen f with
  | none => ["lichess_2023_01"]
  | some b =>
    let move_count := b.move_stack.length
    let position_type :=
      if move_count < 10 then "opening"
      else if move_count < 30 then "middlegame"
      else "endgame"
    let relevant := position_datasets position_type
    let available := relevant.filter avail
    if available.isEmpty then ["lichess_2023_01"] else available

end DatasetManager

/-! ## Archive processor (ArchiveDownloader, data_manager.py lines 880-1029)

Game-record replay is library work: a record that python-chess managed
to read is modelled as its Result header together with the list of
plies the replay loop produces — each ply pairing the normalized FEN of
the position before the move with the UCI move about to be played.
`none` stands for a record chess.pgn.read_game could not parse. -/

/-- A game record as seen after the library parse and replay: the
Result header string (empty when the header is missing) and the
(normalized FEN before the move, UCI move) pair of every ply. -/
structure ParsedGame where
  result : String
  plies : List (String × String)
deriving DecidableEq, Repr

/-- ArchiveDownloader.parse_game_lines (data_manager.py lines 985-1029):
records without a definite Result header (missing or "*") yield none;
otherwise one GameResult per ply is built (game_results), but ONLY the
first element, game_results[0], is returned to the caller (line 1025).
Parse failures (none input) also yield none. -/
def parse_game_lines (g : Option ParsedGame) (network filename : String)
    (ts : Nat) : Option GameResult :=
  match g with
  | none => none
  | some game =>
    if game.result == "" || game.result == "*" then none
    else
      (game.plies.map (fun p =>
        GameResult.mk p.1 p.2 game.result network filename ts)).head?

/-- ArchiveDownloader._process_pgn_file (data_manager.py lines 955-983),
at record granularity (record-boundary splitting on '[Event' lines is
upstream of this model): for each game record, parse_game_lines is
called once and, when it returns a record, that single record is passed
to store_game_result and the processed-games counter is incremented. -/
def process_pgn_file (db : Store) (games : List (Option ParsedGame))
    (network filename : String) (ts : Nat) : Store × Nat :=
  games.foldl
    (fun acc g =>
      match parse_game_lines g network filename ts with
      | some gr => (store_game_result acc.1 gr, acc.2 + 1)
      | none => acc)
    (db, 0)

/-! ## Synthetic estimator (DataManager, data_manager.py lines 1164-1245)

The chess-library facts about each move (the piece on the from-square,
capture and check status) and the two random.randint(-5, 5) draws are
oracle inputs collected in `MoveCtx`. -/

/-- Chess piece kinds, as classified by _generate_sample_stat_for_move. -/
inductive PieceType where
  | pawn | knight | bishop | rook | queen | king
deriving DecidableEq, Repr

/-- Oracle inputs for one move: the piece on the from-square (none when
board.piece_at returns None), capture and check status, and the two
bounded random adjustments. -/
structure MoveCtx where
  piece : Option PieceType
  is_capture : Bool
  is_check : Bool
  r1 : Int
  r2 : Int
deriving DecidableEq, Repr

/-- Base (wins, losses) by piece type (data_manager.py lines 1184-1208);
draws start at 20 and are recomputed below. -/
def pieceBase : PieceType → Int × Int
  | .pawn => (45, 35)
  | .knight => (40, 40)
  | .bishop => (40, 40)
  | .rook => (42, 38)
  | .queen => (38, 42)
  | .king => (35, 45)

/-- Python's `x or default` on an optional string: the default is used
when the value is None or empty. -/
def pyOr (s : Option String) (dflt : String) : String :=
  match s with
  | none => dflt
  | some t => if t == "" then dflt else t

/-- Truncation toward zero, as Python's int() applied to a float. -/
def ratTrunc (q : ℚ) : Int :=
  if 0 ≤ q then q.floor else -((-q).floor)

/-- DataManager._generate_sample_stat_for_move (data_manager.py lines
1164-1245): base tallies by piece type, +5/+5 for captures, +3/+3 for
checks, the random adjustments, draws = max(0, 100 - wins - losses)
computed from the adjusted tallies, clamping of every tally at 0, and
the derived centipawn evaluation.  The network tag is `network or
"sample"`.  Returns none when no piece sits on the from-square (and on
any chess-library exception, likewise absorbed by the caller). -/
def generate_sample_stat_for_move (fen move : String) (network : Option String)
    (ctx : MoveCtx) (ts : Nat) : Option MoveStats :=
  match ctx.piece with
  | none => none
  | some pt =>
    let base := pieceBase pt
    let w := base.1 + (if ctx.is_capture then 5 else 0)
      + (if ctx.is_check then 3 else 0) + ctx.r1
    let l := base.2 + (if ctx.is_capture then 5 else 0)
      + (if ctx.is_check then 3 else 0) + ctx.r2
    let d : Int := max 0 (100 - w - l)
    let wins := (max 0 w).toNat
    let losses := (max 0 l).toNat
    let draws := (max 0 d).toNat
    some
      { fen := fen
        move := move
        wins := wins
        losses := losses
        draws := draws
        network := pyOr network "sample"
        source_files := ["sample_data.pgn"]
        last_updated := ts
        evaluation_score :=
          ratTrunc (((((wins : ℚ) + 1/2 * (draws : ℚ))
            / ((wins + losses + draws : Nat) : ℚ)) - 1/2) * 200) }

/-- DataManager._fetch_position_specific_data (data_manager.py lines
1138-1162): generate a sample stat for every legal move (moves whose
generation fails are dropped) and, when any were produced, merge each
into the store via update_move_stats; returns the stats and the updated
store. -/
def fetch_position_specific_data (db : Store) (fen : String)
    (legal_moves : List String) (network : Option String)
    (info : String → MoveCtx) (ts : Nat) : List MoveStats × Store :=
  let stats := legal_moves.filterMap
    (fun m => generate_sample_stat_for_move fen m network (info m) ts)
  (stats, stats.foldl update_move_stats db)

/-! ## Position statistics service (DataManager, data_manager.py lines 1031-1390) -/

/-- Key of the in-memory position cache _position_cache: the Python
string f-key "nfen:(network or 'all'):min_games", modelled structurally. -/
abbrev CacheKey := String × String × Nat

/-- DataManager's mutable state: the statistics store owned by its
CacheManager and the in-memory _position_cache. -/
structure DMState where
  store : Store
  position_cache : List (CacheKey × List MoveStats)
deriving Repr

/-- Dictionary lookup in the position cache. -/
def cache_lookup (c : List (CacheKey × List MoveStats)) (k : CacheKey) :
    Option (List MoveStats) :=
  (c.find? (fun e => e.1 == k)).map (fun e => e.2)

namespace DataManager

/-- DataManager.get_position_stats (data_manager.py lines 1101-1136):
normalize the FEN (an invalid one raises inside the try and yields []),
return a cached entry when the key is present, otherwise return [] for
a position without legal moves, else read the store and fall back to
the synthetic estimator when the store has no rows for the position;
filter by min_games and cache the filtered list under the key.
`legal_moves` and `info` are the chess-library/randomness oracles. -/
def get_position_stats (st : DMState) (fen : FenFields) (network : Option String)
    (min_games : Nat) (legal_moves : List String) (info : String → MoveCtx)
    (ts : Nat) : List MoveStats × DMState :=
  match normalize_fen fen with
  | none => ([], st)
  | some nf =>
    let nfen := fenStr nf
    let key : CacheKey := (nfen, pyOr network "all", min_games)
    match cache_lookup st.position_cache key with
    | some cached => (cached, st)
    | none =>
      if legal_moves.isEmpty then ([], st)
      else
        let stats0 := get_all_moves_for_position st.store nfen network
        let fetched :=
          if stats0.isEmpty then
            fetch_position_specific_data st.store nfen legal_moves network info ts
          else (stats0, st.store)
        let filtered :=
          if 0 < min_games then
            fetched.1.filter (fun s => min_games ≤ s.total_games)
          else fetched.1
        (filtered,
         { store := fetched.2
           position_cache := (key, filtered) :: st.position_cache })

/-- DataManager.download_dataset (data_manager.py lines 1362-1373): the
facade ignores which dataset was named — it only ensures sample data
exists (_ensure_basic_dataset, which swallows its own exceptions) and
returns True. -/
def download_dataset (_name : String) : Bool :=
  true

/-- Status dictionary returned by DataManager.get_dataset_status
(data_manager.py lines 1375-1386) on its normal path: it has no error
entry and does not depend on the requested dataset name. -/
structure DataManagerStatus where
  position_specific : Bool
  sample_data_available : Bool
  cached_positions : Nat
  download_queue_length : Nat
deriving DecidableEq, Repr

/-- DataManager.get_dataset_status (data_manager.py lines 1375-1386). -/
def get_dataset_status (_name : Option String) (sampleDataOnDisk : Bool)
    (st : DMState) (queueLen : Nat) : DataManagerStatus :=
  ⟨true, sampleDataOnDisk, st.position_cache.length, queueLen⟩

end DataManager

/-! ## Shared concrete inputs -/

/-- Field form of the standard initial position with zeroed counters. -/
def startPos : FenFields :=
  ⟨"rnbqkbnr/pppppppp/8/8/8/8/PPPPPPPP/RNBQKBNR", "w", "KQkq", "-", 0, 1⟩

/-- Its serialized store/cache key. -/
def startFen : String := fenStr startPos

/-! ## C1 — merge additivity -/

/-- C1 counterexample: 10 store_game_result calls with result "1-0"
followed by 5 with "0-1" for the key (F, e2e4, real) do NOT leave
wins=10, losses=5, draws=0, total_games=15 in the store; the INSERT OR
REPLACE semantics keeps only the last contribution, wins=0, losses=1,
draws=0, total_games=1. -/
theorem C1_counterexample :
    ((get_move_stats
        ((List.replicate 10 (GameResult.mk "F" "e2e4" "1-0" "real" "a.pgn" 0)
          ++ List.replicate 5 (GameResult.mk "F" "e2e4" "0-1" "real" "a.pgn" 0)).foldl
          store_game_result ([] : Store)) "F" "e2e4" (some "real")).map
        (fun s => (s.wins, s.losses, s.draws, s.total_games)) = some (0, 1, 0, 1))
    ∧ ¬ ((get_move_stats
        ((List.replicate 10 (GameResult.mk "F" "e2e4" "1-0" "real" "a.pgn" 0)
          ++ List.replicate 5 (GameResult.mk "F" "e2e4" "0-1" "real" "a.pgn" 0)).foldl
          store_game_result ([] : Store)) "F" "e2e4" (some "real")).map
        (fun s => (s.wins, s.losses, s.draws, s.total_games)) = some (10, 5, 0, 15)) := by
  constructor
  · decide
  · decide

/-- C1 (amended): the store's merge-update is last-write-wins, not
additive — after any store_game_result call the aggregate stored for
that game's key is exactly that single game's one-game tally, whatever
was stored before; in particular the 10+5 scenario ends with wins=0,
losses=1, draws=0, total_games=1. -/
theorem C1_theorem (db : Store) (g : GameResult) :
    get_move_stats (store_game_result db g) g.fen g.move (some g.network) =
      some
        { fen := g.fen
          move := g.move
          wins := if g.result == "1-0" then 1 else 0
          losses := if g.result == "0-1" then 1 else 0
          draws := if g.result == "1/2-1/2" then 1 else 0
          network := g.network
          source_files := [g.source_file]
          last_updated := g.timestamp
          evaluation_score := 0 } := by
  simp [get_move_stats, store_game_result, update_move_stats]

/-! ## C5 — performance score bounds and zero-total convention -/

/-- C5 counterexample: the MoveStats class of utils.py returns 0.0, not
0.5, for an aggregate with total_games = 0. -/
theorem C5_counterexample :
    (Utils.MoveStats.mk "F" "e2e4" 0 0 0 "" [] 0 0).performance_score = 0 ∧
    ¬ ((Utils.MoveStats.mk "F" "e2e4" 0 0 0 "" [] 0 0).performance_score = 1/2) := by
  constructor
  · simp [Utils.MoveStats.performance_score, Utils.MoveStats.total_games]
  · simp [Utils.MoveStats.performance_score, Utils.MoveStats.total_games]

/-- C5 (amended): for every aggregate of either MoveStats class,
0 ≤ performance_score ≤ 1; at total_games = 0 the data_manager.py class
returns the 0.5 convention while the utils.py class returns 0.0. -/
theorem C5_theorem :
    (∀ s : MoveStats, 0 ≤ s.performance_score ∧ s.performance_score ≤ 1 ∧
      (s.total_games = 0 → s.performance_score = 1/2)) ∧
    (∀ u : Utils.MoveStats, 0 ≤ u.performance_score ∧ u.performance_score ≤ 1 ∧
      (u.total_games = 0 → u.performance_score = 0)) := by
  constructor
  · intro s
    refine ⟨?_, ?_, ?_⟩
    · unfold MoveStats.performance_score
      split
      · norm_num
      · apply div_nonneg
        · positivity
        · positivity
    · unfold MoveStats.performance_score
      split
      · norm_num
      · rename_i h
        rw [div_le_one (by exact_mod_cast Nat.pos_of_ne_zero h)]
        have hc : (s.total_games : ℚ) =
            (s.wins : ℚ) + (s.losses : ℚ) + (s.draws : ℚ) := by
          unfold MoveStats.total_games
          push_cast
          ring
        rw [hc]
        have h1 : (0 : ℚ) ≤ (s.losses : ℚ) := by positivity
        have h2 : (0 : ℚ) ≤ (s.draws : ℚ) := by positivity
        linarith
    · intro h
      unfold MoveStats.performance_score
      rw [if_pos h]
  · intro u
    refine ⟨?_, ?_, ?_⟩
    · unfold Utils.MoveStats.performance_score
      split
      · norm_num
      · apply div_nonneg
        · positivity
        · positivity
    · unfold Utils.MoveStats.performance_score
      split
      · norm_num
      · rename_i h
        rw [div_le_one (by exact_mod_cast Nat.pos_of_ne_zero h)]
        have hc : (u.total_games : ℚ) =
            (u.wins : ℚ) + (u.losses : ℚ) + (u.draws : ℚ) := by
          unfold Utils.MoveStats.total_games
          push_cast
          ring
        rw [hc]
        have h1 : (0 : ℚ) ≤ (u.losses : ℚ) := by positivity
        have h2 : (0 : ℚ) ≤ (u.draws : ℚ) := by positivity
        linarith
    · intro h
      unfold Utils.MoveStats.performance_score
      rw [if_pos h]

/-- C5 witness: the zero-total conventions of the two classes, obtained
from the theorem at a concrete empty aggregate. -/
theorem C5_witness :
    (MoveStats.mk "F" "e2e4" 0 0 0 "" [] 0 0).performance_score = 1/2 ∧
    (Utils.MoveStats.mk "F" "e2e4" 0 0 0 "" [] 0 0).performance_score = 0 :=
  ⟨(C5_theorem.1 (MoveStats.mk "F" "e2e4" 0 0 0 "" [] 0 0)).2.2 rfl,
   (C5_theorem.2 (Utils.MoveStats.mk "F" "e2e4" 0 0 0 "" [] 0 0)).2.2 rfl⟩

/-! ## C6 — canonicalization idempotence and transposition merging -/

/-- C6: two position descriptions that agree on the four position
fields (so differ at most in the move counters) canonicalize
identically, and normalize_fen is idempotent: whenever it returns a
canonical form, running it again on that form returns the same form. -/
theorem C6_theorem :
    (∀ f g : FenFields, f.placement = g.placement → f.active = g.active →
      f.castling = g.castling → f.ep = g.ep →
      normalize_fen f = normalize_fen g) ∧
    (∀ f nf : FenFields, normalize_fen f = some nf →
      normalize_fen nf = some nf) := by
  constructor
  · intro f g h1 h2 h3 h4
    unfold normalize_fen Board.ofFen fenValid Board.fenFields
    rw [h1, h2, h3, h4]
    by_cases hv : (g.active == "w" || g.active == "b") = true
    · simp [hv]
    · simp [hv]
  · intro f nf h
    unfold normalize_fen Board.ofFen fenValid Board.fenFields at h ⊢
    by_cases hv : (f.active == "w" || f.active == "b") = true
    · simp only [hv, if_true, Option.map_some] at h
      cases h
      simp [hv]
    · simp [hv] at h

/-- C6 witness: the initial position with counters (0,1) and with
counters (7,42) canonicalize to the same key, and canonicalizing the
canonical form is stable. -/
theorem C6_witness :
    normalize_fen startPos =
      normalize_fen ⟨"rnbqkbnr/pppppppp/8/8/8/8/PPPPPPPP/RNBQKBNR", "w", "KQkq", "-", 7, 42⟩ ∧
    normalize_fen startPos = some startPos :=
  ⟨C6_theorem.1 startPos
      ⟨"rnbqkbnr/pppppppp/8/8/8/8/PPPPPPPP/RNBQKBNR", "w", "KQkq", "-", 7, 42⟩
      rfl rfl rfl rfl,
   C6_theorem.2 startPos startPos (by decide)⟩

/-! ## C2 — download failure containment -/

/-- C2 counterexample: for the known dataset lichess_2023_01 (no local
copy, no prior retries), a first download attempt whose stream
completes but whose integrity verification fails makes download_dataset
terminate the whole process via sys.exit(1) — it does not return the
boolean false to its caller. -/
theorem C2_counterexample :
    DatasetManager.download_dataset "lichess_2023_01" false 0
      (fun _ => [AttemptOutcome.streamed false]) true = DownloadResult.exited ∧
    DownloadResult.exited ≠ DownloadResult.failure := by
  constructor
  · decide
  · decide

/-- C2 (amended): when integrity verification of a completed download
fails, the corrupt temporary file IS deleted, but instead of counting a
failed attempt the retry loop terminates the process (sys.exit(1), data_manager.py
line 358): no retry, no URL fallback and no boolean false ever reaches
the caller of download_dataset. -/
theorem C2_theorem :
    (∀ (rest : List AttemptOutcome) (r : Nat) (tmp : Bool),
      download_attempts (AttemptOutcome.streamed false :: rest) (r + 1) tmp
        = (DownloadResult.exited, false)) ∧
    (∀ (net : String → List AttemptOutcome) (fv : Bool) (u : String)
        (us : List String) (rest : List AttemptOutcome),
      net u = AttemptOutcome.streamed false :: rest →
      DatasetManager.try_urls net fv (u :: us) = DownloadResult.exited) := by
  constructor
  · intro rest r tmp
    rfl
  · intro net fv u us rest h
    unfold DatasetManager.try_urls download_with_retry
    rw [h]
    rfl

/-- C2 witness: the amended behaviour at a concrete one-URL, one-attempt
scenario with a failing integrity check. -/
theorem C2_witness :
    download_attempts [AttemptOutcome.streamed false] 3 false
      = (DownloadResult.exited, false) ∧
    DatasetManager.try_urls (fun _ => [AttemptOutcome.streamed false]) true
      ["https://database.lichess.org/standard/lichess_db_standard_rated_2023-01.pgn.zst"]
      = DownloadResult.exited :=
  ⟨C2_theorem.1 [] 2 false,
   C2_theorem.2 (fun _ => [AttemptOutcome.streamed false]) true
     "https://database.lichess.org/standard/lichess_db_standard_rated_2023-01.pgn.zst"
     [] [] rfl⟩

/-! ## C3 — cache coherence -/

/-- C3 counterexample: after get_position_stats has cached the starting
position's one-row result (wins=1) and the store row is then
merge-updated to wins=2, the next get_position_stats returns the stale
cached wins=1 list, not the updated store contents. -/
theorem C3_counterexample :
    (DataManager.get_position_stats
        ⟨update_move_stats
            (DataManager.get_position_stats
              ⟨[MoveStats.mk startFen "e2e4" 1 0 0 "real" ["a.pgn"] 0 0], []⟩
              startPos (some "real") 0 ["e2e4"]
              (fun _ => ⟨some PieceType.pawn, false, false, 0, 0⟩) 0).2.store
            (MoveStats.mk startFen "e2e4" 2 0 0 "real" ["a.pgn"] 1 0),
          (DataManager.get_position_stats
              ⟨[MoveStats.mk startFen "e2e4" 1 0 0 "real" ["a.pgn"] 0 0], []⟩
              startPos (some "real") 0 ["e2e4"]
              (fun _ => ⟨some PieceType.pawn, false, false, 0, 0⟩) 0).2.position_cache⟩
        startPos (some "real") 0 ["e2e4"]
        (fun _ => ⟨some PieceType.pawn, false, false, 0, 0⟩) 0).1.map
      (fun s => (s.move, s.wins)) = [("e2e4", 1)] ∧
    (get_move_stats
        (update_move_stats
          (DataManager.get_position_stats
            ⟨[MoveStats.mk startFen "e2e4" 1 0 0 "real" ["a.pgn"] 0 0], []⟩
            startPos (some "real") 0 ["e2e4"]
            (fun _ => ⟨some PieceType.pawn, false, false, 0, 0⟩) 0).2.store
          (MoveStats.mk startFen "e2e4" 2 0 0 "real" ["a.pgn"] 1 0))
        startFen "e2e4" (some "real")).map (fun s => s.wins) = some 2 := by
  constructor
  · decide
  · decide

/-- C3 (amended): a merge-update never invalidates any position-cache
entry — update_move_stats touches only the store, so whenever the cache
holds an entry for a position/filter key, get_position_stats keeps
returning exactly that cached list after any update, however the store
changed (only cleanup_cache ever empties the cache). -/
theorem C3_theorem (st : DMState) (s : MoveStats) (fen nf : FenFields)
    (network : Option String) (mg : Nat) (lm : List String)
    (info : String → MoveCtx) (ts : Nat) (v : List MoveStats)
    (h1 : normalize_fen fen = some nf)
    (h2 : cache_lookup st.position_cache (fenStr nf, pyOr network "all", mg) = some v) :
    (DataManager.get_position_stats ⟨update_move_stats st.store s, st.position_cache⟩
        fen network mg lm info ts).1 = v := by
  unfold DataManager.get_position_stats
  rw [h1]
  simp only [h2]

/-- C3 witness: the amended staleness statement at a concrete cached
entry and a concrete update. -/
theorem C3_witness :
    (DataManager.get_position_stats
        ⟨update_move_stats [] (MoveStats.mk startFen "e2e4" 2 0 0 "real" ["a.pgn"] 1 0),
          [((startFen, "real", 0), [MoveStats.mk startFen "e2e4" 1 0 0 "real" ["a.pgn"] 0 0])]⟩
        startPos (some "real") 0 ["e2e4"]
        (fun _ => ⟨some PieceType.pawn, false, false, 0, 0⟩) 0).1 =
      [MoveStats.mk startFen "e2e4" 1 0 0 "real" ["a.pgn"] 0 0] :=
  C3_theorem
    ⟨[], [((startFen, "real", 0), [MoveStats.mk startFen "e2e4" 1 0 0 "real" ["a.pgn"] 0 0])]⟩
    (MoveStats.mk startFen "e2e4" 2 0 0 "real" ["a.pgn"] 1 0)
    startPos startPos (some "real") 0 ["e2e4"]
    (fun _ => ⟨some PieceType.pawn, false, false, 0, 0⟩) 0
    [MoveStats.mk startFen "e2e4" 1 0 0 "real" ["a.pgn"] 0 0]
    (by decide) (by decide)

/-! ## C4 — per-ply emission during replay -/

/-- A two-ply game record with a definite outcome, the failing input. -/
def c4Game : ParsedGame := ⟨"1-0", [("fenA", "e2e4"), ("fenB", "e7e5")]⟩

/-- The store and processed-game counter after processing it. -/
def c4Run : Store × Nat := process_pgn_file [] [some c4Game] "real" "a.pgn" 0

/-- C4 (code evaluated at the failing input): processing a game record
with outcome "1-0" and 2 parseable plies stores exactly ONE outcome
record — the first ply's — and nothing for the second ply, because
parse_game_lines returns only game_results[0] and _process_pgn_file
stores just that single record, although its own comment says all of
them are processed by the caller. -/
theorem C4_theorem :
    c4Run.2 = 1 ∧
    c4Run.1.length = 1 ∧
    (get_move_stats c4Run.1 "fenA" "e2e4" (some "real")).map
      (fun s => (s.wins, s.losses, s.draws)) = some (1, 0, 0) ∧
    get_move_stats c4Run.1 "fenB" "e7e5" (some "real") = none := by
  refine ⟨by decide, by decide, by decide, by decide⟩

/-! ## C7 — synthetic provenance tag -/

/-- C7 counterexample: when the caller passes source_tag "real", the
synthetic estimator tags its aggregate "real", not the reserved
"sample" — `network or "sample"` only substitutes the reserved tag when
the caller passed none. -/
theorem C7_counterexample :
    (generate_sample_stat_for_move "F" "e2e4" (some "real")
        ⟨some PieceType.pawn, false, false, 0, 0⟩ 0).map MoveStats.network
      = some "real" ∧ ("real" : String) ≠ "sample" := by
  constructor
  · decide
  · decide

/-- C7 (amended): a synthetic aggregate carries the reserved tag
"sample" only when the caller passed no source_tag (None or the empty
string); with any other caller-passed tag it carries that tag — and is
merged into the same store keyspace under it, so synthetic and
archive-derived aggregates can share a source_tag. -/
theorem C7_theorem :
    (∀ (fen move : String) (ctx : MoveCtx) (ts : Nat),
      (generate_sample_stat_for_move fen move none ctx ts).all
        (fun s => s.network == "sample") = true) ∧
    (∀ (fen move t : String) (ctx : MoveCtx) (ts : Nat), t ≠ "" →
      (generate_sample_stat_for_move fen move (some t) ctx ts).all
        (fun s => s.network == t) = true) := by
  constructor
  · intro fen move ctx ts
    unfold generate_sample_stat_for_move
    cases ctx.piece
    · rfl
    · simp [pyOr]
  · intro fen move t ctx ts h
    unfold generate_sample_stat_for_move
    cases ctx.piece
    · rfl
    · simp [pyOr, h]

/-- C7 witness: the amended tagging at concrete calls, one with no
caller tag and one with the caller tag "lichess". -/
theorem C7_witness :
    (generate_sample_stat_for_move "F" "e2e4" none
        ⟨some PieceType.pawn, false, false, 0, 0⟩ 0).all
      (fun s => s.network == "sample") = true ∧
    (generate_sample_stat_for_move "F" "e2e4" (some "lichess")
        ⟨some PieceType.pawn, false, false, 0, 0⟩ 0).all
      (fun s => s.network == "lichess") = true :=
  ⟨C7_theorem.1 "F" "e2e4" ⟨some PieceType.pawn, false, false, 0, 0⟩ 0,
   C7_theorem.2 "F" "e2e4" "lichess" ⟨some PieceType.pawn, false, false, 0, 0⟩ 0
     (by decide)⟩

/-! ## C8 — unknown dataset handling -/

/-- C8 counterexample: the DataManager facade's download_dataset — one
of the entry points the claim covers — returns True for the unknown
identifier "does-not-exist", not false (it ignores the name and only
ensures sample data). -/
theorem C8_counterexample :
    DataManager.download_dataset "does-not-exist" = true ∧ true ≠ false := by
  constructor
  · rfl
  · decide

/-- C8 (amended): for an identifier absent from the catalog,
DatasetManager.get_dataset_status returns the error dictionary (and
never raises) and DatasetManager.download_dataset returns false; the
DataManager facade's download_dataset, however, returns True for every
identifier, known or not. -/
theorem C8_theorem (name : String) (fe v avail fvk : Bool) (rc : Nat)
    (net : String → List AttemptOutcome)
    (h : findDataset name = none) :
    DatasetManager.get_dataset_status name fe v rc =
      DatasetManager.DatasetStatus.error "Unknown dataset" ∧
    DatasetManager.download_dataset name avail rc net fvk = DownloadResult.failure ∧
    DataManager.download_dataset name = true := by
  refine ⟨?_, ?_, rfl⟩
  · unfold DatasetManager.get_dataset_status
    rw [h]
  · unfold DatasetManager.download_dataset
    rw [h]

/-- C8 witness: the amended statement at the identifier
"does-not-exist". -/
theorem C8_witness :
    DatasetManager.get_dataset_status "does-not-exist" false false 0 =
      DatasetManager.DatasetStatus.error "Unknown dataset" ∧
    DatasetManager.download_dataset "does-not-exist" false 0 (fun _ => []) true
      = DownloadResult.failure ∧
    DataManager.download_dataset "does-not-exist" = true :=
  C8_theorem "does-not-exist" false false false true 0 (fun _ => []) (by decide)

/-! ## C9 — game-phase classification -/

/-- C9 (code evaluated at the failing input): a position whose FEN
records fullmove number 40 — deep endgame by the claimed move-count
heuristic — is still classified as an opening position: the
chess.Board built from a FEN has an empty move_stack, so move_count is
always 0 and the middlegame/endgame branches are unreachable; with all
datasets locally available the function returns the opening list, not
the endgame list. -/
theorem C9_theorem :
    DatasetManager.get_relevant_datasets_for_position (fun _ => true)
        ⟨"8/8/8/4k3/8/8/4P3/4K3", "w", "-", "-", 12, 40⟩
      = ["lichess_2023_01", "lichess_2022_12"] ∧
    DatasetManager.position_datasets "endgame"
      = ["lichess_2023_01", "lichess_2022_12", "lichess_2022_11", "lichess_2022_10"] ∧
    (["lichess_2023_01", "lichess_2022_12"] : List String)
      ≠ ["lichess_2023_01", "lichess_2022_12", "lichess_2022_11", "lichess_2022_10"] := by
  refine ⟨by decide, by decide, by decide⟩

/-! ## C10 — synthetic estimate bounds -/

/-- An aggregate with at least 100 games is rated at the highest
confidence tier. -/
theorem confidence_high_of_total (s : MoveStats) (h : 100 ≤ s.total_games) :
    s.confidence_level = "high" := by
  unfold MoveStats.confidence_level
  rw [if_pos h]

/-- Wins tally of a generated synthetic stat, read off the definition. -/
theorem generate_wins_eq (fen move : String) (network : Option String)
    (pt : PieceType) (cap chk : Bool) (r1 r2 : Int) (ts : Nat) :
    (generate_sample_stat_for_move fen move network
        ⟨some pt, cap, chk, r1, r2⟩ ts).map MoveStats.wins
      = some (max 0 ((pieceBase pt).1 + (if cap then (5:Int) else 0)
          + (if chk then (3:Int) else 0) + r1)).toNat := rfl

/-- Losses tally of a generated synthetic stat. -/
theorem generate_losses_eq (fen move : String) (network : Option String)
    (pt : PieceType) (cap chk : Bool) (r1 r2 : Int) (ts : Nat) :
    (generate_sample_stat_for_move fen move network
        ⟨some pt, cap, chk, r1, r2⟩ ts).map MoveStats.losses
      = some (max 0 ((pieceBase pt).2 + (if cap then (5:Int) else 0)
          + (if chk then (3:Int) else 0) + r2)).toNat := rfl

/-- Draws tally of a generated synthetic stat. -/
theorem generate_draws_eq (fen move : String) (network : Option String)
    (pt : PieceType) (cap chk : Bool) (r1 r2 : Int) (ts : Nat) :
    (generate_sample_stat_for_move fen move network
        ⟨some pt, cap, chk, r1, r2⟩ ts).map MoveStats.draws
      = some (max 0 (max 0 (100
          - ((pieceBase pt).1 + (if cap then (5:Int) else 0)
              + (if chk then (3:Int) else 0) + r1)
          - ((pieceBase pt).2 + (if cap then (5:Int) else 0)
              + (if chk then (3:Int) else 0) + r2)))).toNat := rfl

/-- Interval arithmetic behind the synthetic tallies: with base tallies
in [35, 45] summing to 80, capture bonus in [0, 5], check bonus in
[0, 3] and random adjustments in [-5, 5], the clamped tallies are at
least 30 each and total between 100 and 106. -/
theorem sample_bounds_core (A B C K r1 r2 : Int)
    (hA1 : 35 ≤ A) (hA2 : A ≤ 45) (hB1 : 35 ≤ B) (hB2 : B ≤ 45)
    (hAB : A + B = 80) (hC1 : 0 ≤ C) (hC2 : C ≤ 5) (hK1 : 0 ≤ K) (hK2 : K ≤ 3)
    (h1 : -5 ≤ r1) (h2 : r1 ≤ 5) (h3 : -5 ≤ r2) (h4 : r2 ≤ 5) :
    30 ≤ (max 0 (A + C + K + r1)).toNat ∧
    30 ≤ (max 0 (B + C + K + r2)).toNat ∧
    100 ≤ (max 0 (A + C + K + r1)).toNat + (max 0 (B + C + K + r2)).toNat
        + (max 0 (max 0 (100 - (A + C + K + r1) - (B + C + K + r2)))).toNat ∧
    (max 0 (A + C + K + r1)).toNat + (max 0 (B + C + K + r2)).toNat
        + (max 0 (max 0 (100 - (A + C + K + r1) - (B + C + K + r2)))).toNat ≤ 106 := by
  omega

/-- C10: for every position and move, every piece type, capture/check
status and random adjustments in [-5, 5], the synthetic estimator
produces a stat with wins ≥ 30, losses ≥ 30, draws ≥ 0, total_games
between 100 and 106, and hence the highest confidence tier. -/
theorem C10_theorem (fen move : String) (network : Option String) (pt : PieceType)
    (cap chk : Bool) (r1 r2 : Int) (ts : Nat) (s : MoveStats)
    (hr1 : -5 ≤ r1) (hr2 : r1 ≤ 5) (hr3 : -5 ≤ r2) (hr4 : r2 ≤ 5)
    (hs : generate_sample_stat_for_move fen move network
      ⟨some pt, cap, chk, r1, r2⟩ ts = some s) :
    30 ≤ s.wins ∧ 30 ≤ s.losses ∧ 0 ≤ s.draws ∧
    100 ≤ s.total_games ∧ s.total_games ≤ 106 ∧
    s.confidence_level = "high" := by
  have hw : s.wins = (max 0 ((pieceBase pt).1 + (if cap then (5:Int) else 0)
      + (if chk then (3:Int) else 0) + r1)).toNat := by
    have h := generate_wins_eq fen move network pt cap chk r1 r2 ts
    rw [hs] at h
    exact Option.some.inj h
  have hl : s.losses = (max 0 ((pieceBase pt).2 + (if cap then (5:Int) else 0)
      + (if chk then (3:Int) else 0) + r2)).toNat := by
    have h := generate_losses_eq fen move network pt cap chk r1 r2 ts
    rw [hs] at h
    exact Option.some.inj h
  have hd : s.draws = (max 0 (max 0 (100
      - ((pieceBase pt).1 + (if cap then (5:Int) else 0)
          + (if chk then (3:Int) else 0) + r1)
      - ((pieceBase pt).2 + (if cap then (5:Int) else 0)
          + (if chk then (3:Int) else 0) + r2)))).toNat := by
    have h := generate_draws_eq fen move network pt cap chk r1 r2 ts
    rw [hs] at h
    exact Option.some.inj h
  have hcore := sample_bounds_core (pieceBase pt).1 (pieceBase pt).2
    (if cap then (5:Int) else 0) (if chk then (3:Int) else 0) r1 r2
    (by cases pt <;> norm_num [pieceBase])
    (by cases pt <;> norm_num [pieceBase])
    (by cases pt <;> norm_num [pieceBase])
    (by cases pt <;> norm_num [pieceBase])
    (by cases pt <;> norm_num [pieceBase])
    (by cases cap <;> norm_num)
    (by cases cap <;> norm_num)
    (by cases chk <;> norm_num)
    (by cases chk <;> norm_num)
    hr1 hr2 hr3 hr4
  have htot : s.total_games = s.wins + s.losses + s.draws := rfl
  refine ⟨?_, ?_, Nat.zero_le _, ?_, ?_, ?_⟩
  · rw [hw]
    exact hcore.1
  · rw [hl]
    exact hcore.2.1
  · rw [htot, hw, hl, hd]
    exact hcore.2.2.1
  · rw [htot, hw, hl, hd]
    exact hcore.2.2.2
  · apply confidence_high_of_total
    rw [htot, hw, hl, hd]
    exact hcore.2.2.1

/-- C10 witness: the bounds at a concrete pawn move with zero random
adjustment. -/
theorem C10_witness :
    30 ≤ ((generate_sample_stat_for_move "F" "e2e4" none
        ⟨some PieceType.pawn, false, false, 0, 0⟩ 0).getD
        (MoveStats.mk "" "" 0 0 0 "" [] 0 0)).wins ∧
    30 ≤ ((generate_sample_stat_for_move "F" "e2e4" none
        ⟨some PieceType.pawn, false, false, 0, 0⟩ 0).getD
        (MoveStats.mk "" "" 0 0 0 "" [] 0 0)).losses ∧
    0 ≤ ((generate_sample_stat_for_move "F" "e2e4" none
        ⟨some PieceType.pawn, false, false, 0, 0⟩ 0).getD
        (MoveStats.mk "" "" 0 0 0 "" [] 0 0)).draws ∧
    100 ≤ ((generate_sample_stat_for_move "F" "e2e4" none
        ⟨some PieceType.pawn, false, false, 0, 0⟩ 0).getD
        (MoveStats.mk "" "" 0 0 0 "" [] 0 0)).total_games ∧
    ((generate_sample_stat_for_move "F" "e2e4" none
        ⟨some PieceType.pawn, false, false, 0, 0⟩ 0).getD
        (MoveStats.mk "" "" 0 0 0 "" [] 0 0)).total_games ≤ 106 ∧
    ((generate_sample_stat_for_move "F" "e2e4" none
        ⟨some PieceType.pawn, false, false, 0, 0⟩ 0).getD
        (MoveStats.mk "" "" 0 0 0 "" [] 0 0)).confidence_level = "high" :=
  C10_theorem "F" "e2e4" none PieceType.pawn false false 0 0 0 _
    (by decide) (by decide) (by decide) (by decide) rfl
